import Mathlib

/-!
Verification of the duinobot firmata extension layer
(`src/duinobot/firmata_boards.py`).

The Python module extends a base Firmata `Board` with five sysex command
decoders that write into a robot-sensor-state registry:

* class-level (process-wide, shared across board instances) arrays
  `nearest_obstacle`, `analog_value`, `digital_value`, `live_robots`, each
  of length 128;
* instance-level (per board session) dictionaries `_pin_analog_value` and
  `_pin_digital_value` mapping a robot id to a per-pin array, lazily
  allocated via `dict.setdefault` sized by the configured pin layout.

A decoder that indexes past the end of its payload tuple (or past the end
of a registry list) raises `IndexError` in Python; the embedding models
every such indexing step with `Option`, performing the reads in the exact
order of the Python statements, so a failed read yields `none` before any
state is produced.
-/

namespace Duinobot

/-- Pin layout capability record, mirroring the `BOARDS` dictionary entries. -/
structure BoardLayout where
  digital : List Nat
  analog : List Nat
  pwm : List Nat
  use_ports : Bool
  disabled : List Nat
deriving DecidableEq, Repr

/-- The shipped `"duinobot"` layout: digital pins 0-18, analog pins 0-6,
PWM on 5/6/9, ports enabled, pins 0/1/3/4/8 disabled. -/
def duinobotLayout : BoardLayout :=
  { digital := List.range 19
    analog := List.range 7
    pwm := [5, 6, 9]
    use_ports := true
    disabled := [0, 1, 3, 4, 8] }

/-- `SYSEX_PING = 0x03`. -/
def SYSEX_PING : Nat := 0x03
/-- `ANALOG_INPUT_REQUEST = 0x06`. -/
def ANALOG_INPUT_REQUEST : Nat := 0x06
/-- `DIGITAL_INPUT_REQUEST = 0x07`. -/
def DIGITAL_INPUT_REQUEST : Nat := 0x07
/-- `BROADCAST_REPORT = 0x09`. -/
def BROADCAST_REPORT : Nat := 0x09
/-- `PIN_COMMANDS = 0x0F`. -/
def PIN_COMMANDS : Nat := 0x0F
/-- `PIN_GET_ANALOG = 0x01`. -/
def PIN_GET_ANALOG : Nat := 0x01
/-- `PIN_GET_DIGITAL = 0x02`. -/
def PIN_GET_DIGITAL : Nat := 0x02

/-- The 14-bit reconstruction `(most_significant << 7) + least_significant`
used verbatim at lines 73, 79 and 103-105 of `firmata_boards.py`. -/
def combine14 (most_significant least_significant : Nat) : Nat :=
  (most_significant <<< 7) + least_significant

/-- Splitting a 14-bit value back into its high and low 7-bit halves, the
wire-side encoding the spec's round-trip law refers to. -/
def split14 (v : Nat) : Nat × Nat :=
  (v >>> 7, v % 128)

/-- The class-level arrays of `FirmataSerialBoard` (lines 31-34): these are
class attributes in Python, hence one process-wide store shared by every
board instance. -/
structure GlobalState where
  nearest_obstacle : List Int
  analog_value : List Int
  digital_value : List Int
  live_robots : List Nat
deriving DecidableEq, Repr

/-- The initial class-level store: `[-1 for i in range(128)]` three times and
`[0 for i in range(128)]` for `live_robots`. -/
def initGlobal : GlobalState :=
  { nearest_obstacle := List.replicate 128 (-1)
    analog_value := List.replicate 128 (-1)
    digital_value := List.replicate 128 (-1)
    live_robots := List.replicate 128 0 }

/-- A Python dict from robot id to a per-pin array, represented as an
association list (insertion order preserved, keys unique by construction). -/
abbrev PinDict := List (Nat × List Int)

/-- Python dict lookup on the association-list representation: the value of
the first (and, by construction, only) entry carrying the key. -/
def dictFind (d : PinDict) (key : Nat) : Option (List Int) :=
  match d with
  | [] => none
  | p :: rest => if p.1 = key then some p.2 else dictFind rest key

/-- `dict.setdefault(key, default)`: return the stored value when the key is
present; otherwise insert `default` under the key and return it. -/
def setdefault (d : PinDict) (key : Nat) (default : List Int) :
    List Int × PinDict :=
  match dictFind d key with
  | some w => (w, d)
  | none => (default, d ++ [(key, default)])

/-- Replacing the value stored under `key` (in-place mutation of the list
object held by the dict, seen functionally). -/
def dictStore (d : PinDict) (key : Nat) (v : List Int) : PinDict :=
  d.map fun p => if p.1 = key then (key, v) else p

/-- The per-instance dictionaries set up in `__init__` (lines 39-40 and
136-137): `self._pin_analog_value = {}` and `self._pin_digital_value = {}`.
Being instance attributes, each board session owns its own copy. -/
structure SessionState where
  pin_analog_dict : PinDict
  pin_digital_dict : PinDict
deriving DecidableEq, Repr

/-- Fresh session state: both dictionaries empty. -/
def initSession : SessionState :=
  { pin_analog_dict := [], pin_digital_dict := [] }

/-- `pin_analog_value(robotid)` (lines 90-91):
`return self._pin_analog_value.setdefault(robotid, [-1] * len(self.analog))`. -/
def pin_analog_value (L : BoardLayout) (robotid : Nat) (s : SessionState) :
    List Int × SessionState :=
  let r := setdefault s.pin_analog_dict robotid (List.replicate L.analog.length (-1))
  (r.1, { s with pin_analog_dict := r.2 })

/-- `pin_digital_value(robotid)` (lines 93-94):
`return self._pin_digital_value.setdefault(robotid, [-1] * len(self.digital))`. -/
def pin_digital_value (L : BoardLayout) (robotid : Nat) (s : SessionState) :
    List Int × SessionState :=
  let r := setdefault s.pin_digital_dict robotid (List.replicate L.digital.length (-1))
  (r.1, { s with pin_digital_dict := r.2 })

/-- `_handle_sysex_ping` (lines 69-73): reads `data[0]`, `data[1]`, `data[2]`
in that order, then writes `self.nearest_obstacle[robot]`.  Each out-of-range
index (payload or registry) is an `IndexError`, modelled as `none`. -/
def handle_sysex_ping (data : List Nat) (s : GlobalState) : Option GlobalState :=
  match data[0]?, data[1]?, data[2]? with
  | some most_significant, some least_significant, some robot =>
    if robot < s.nearest_obstacle.length then
      some { s with nearest_obstacle :=
        s.nearest_obstacle.set robot (combine14 most_significant least_significant) }
    else none
  | _, _, _ => none

/-- `_handle_sysex_analog` (lines 75-79): same shape as the ping decoder but
writing `self.analog_value[robot]`. -/
def handle_sysex_analog (data : List Nat) (s : GlobalState) : Option GlobalState :=
  match data[0]?, data[1]?, data[2]? with
  | some most_significant, some least_significant, some robot =>
    if robot < s.analog_value.length then
      some { s with analog_value :=
        s.analog_value.set robot (combine14 most_significant least_significant) }
    else none
  | _, _, _ => none

/-- `_handle_sysex_digital` (lines 81-84): `value = data[0]; robot = data[1];
self.digital_value[robot] = value`. -/
def handle_sysex_digital (data : List Nat) (s : GlobalState) : Option GlobalState :=
  match (data[0]? : Option Nat), data[1]? with
  | some value, some robot =>
    if robot < s.digital_value.length then
      some { s with digital_value := s.digital_value.set robot (value : Int) }
    else none
  | _, _ => none

/-- `_handle_sysex_broadcast` (lines 86-88): `robot = data[0];
self.live_robots[robot] = 1`. -/
def handle_sysex_broadcast (data : List Nat) (s : GlobalState) : Option GlobalState :=
  match data[0]? with
  | some robot =>
    if robot < s.live_robots.length then
      some { s with live_robots := s.live_robots.set robot 1 }
    else none
  | none => none

/-- `_handle_sysex_pin_commands` (lines 96-110): dispatch on `data[0]`;
subtype `PIN_GET_ANALOG` reads `data[1..4]` and writes
`self.pin_analog_value(robot)[pin]`; subtype `PIN_GET_DIGITAL` reads
`data[1..3]` and writes `self.pin_digital_value(robot)[pin]`; any other
subtype falls through with no effect. -/
def handle_sysex_pin_commands (L : BoardLayout) (data : List Nat)
    (s : SessionState) : Option SessionState :=
  match data[0]? with
  | none => none
  | some d0 =>
    if d0 = PIN_GET_ANALOG then
      match data[1]?, data[2]?, data[3]?, data[4]? with
      | some most_significant, some least_significant, some pin, some robot =>
        let r := pin_analog_value L robot s
        if pin < r.1.length then
          let d := dictStore r.2.pin_analog_dict robot
            (r.1.set pin (combine14 most_significant least_significant))
          some { r.2 with pin_analog_dict := d }
        else none
      | _, _, _, _ => none
    else if d0 = PIN_GET_DIGITAL then
      match (data[1]? : Option Nat), data[2]?, data[3]? with
      | some value, some pin, some robot =>
        let r := pin_digital_value L robot s
        if pin < r.1.length then
          let d := dictStore r.2.pin_digital_dict robot (r.1.set pin (value : Int))
          some { r.2 with pin_digital_dict := d }
        else none
      | _, _, _ => none
    else
      some s

/-- One board's complete mutable state: the shared class-level arrays plus
its own per-instance pin dictionaries. -/
structure BoardState where
  globalPart : GlobalState
  sessionPart : SessionState
deriving DecidableEq, Repr

/-- Any single invocation of one of the five registered decoders with an
arbitrary payload. -/
inductive SysexOp where
  | ping (data : List Nat)
  | analogReq (data : List Nat)
  | digitalReq (data : List Nat)
  | broadcast (data : List Nat)
  | pinCommands (data : List Nat)
deriving DecidableEq, Repr

/-- Apply one decoder invocation to a board's state.  A decoder that raises
(`none`) has produced no write, so the state is unchanged. -/
def stepOp (L : BoardLayout) (op : SysexOp) (s : BoardState) : BoardState :=
  match op with
  | .ping d =>
      match handle_sysex_ping d s.globalPart with
      | some g => { s with globalPart := g }
      | none => s
  | .analogReq d =>
      match handle_sysex_analog d s.globalPart with
      | some g => { s with globalPart := g }
      | none => s
  | .digitalReq d =>
      match handle_sysex_digital d s.globalPart with
      | some g => { s with globalPart := g }
      | none => s
  | .broadcast d =>
      match handle_sysex_broadcast d s.globalPart with
      | some g => { s with globalPart := g }
      | none => s
  | .pinCommands d =>
      match handle_sysex_pin_commands L d s.sessionPart with
      | some t => { s with sessionPart := t }
      | none => s

/-- Apply a whole sequence of decoder invocations in order. -/
def runOps (L : BoardLayout) (ops : List SysexOp) (s : BoardState) : BoardState :=
  ops.foldl (fun acc op => stepOp L op acc) s

/-- A process holding two board sessions.  The class-level arrays are one
shared store; each session has its own instance dictionaries. -/
structure TwoSessionProcess where
  shared : GlobalState
  sess1 : SessionState
  sess2 : SessionState
deriving DecidableEq, Repr

/-- Process with two freshly constructed sessions. -/
def initProcess : TwoSessionProcess :=
  { shared := initGlobal, sess1 := initSession, sess2 := initSession }

/-- Deliver one decoder invocation through the chosen session (`true` for
session 1, `false` for session 2).  Scalar decoders hit the shared class
arrays; pin-command decoding goes to that session's own dictionaries. -/
def procStep (L : BoardLayout) (first : Bool) (op : SysexOp)
    (p : TwoSessionProcess) : TwoSessionProcess :=
  if first then
    let b := stepOp L op { globalPart := p.shared, sessionPart := p.sess1 }
    { shared := b.globalPart, sess1 := b.sessionPart, sess2 := p.sess2 }
  else
    let b := stepOp L op { globalPart := p.shared, sessionPart := p.sess2 }
    { shared := b.globalPart, sess1 := p.sess1, sess2 := b.sessionPart }

/-- Reading `self.nearest_obstacle[robot]` through either session resolves to
the class attribute, i.e. the shared store, regardless of the session used. -/
def readNearestObstacle (p : TwoSessionProcess) (robot : Nat) : Option Int :=
  p.shared.nearest_obstacle.get? robot

/-- Reading `self.pin_digital_value(robot)` through a session uses that
session's own `_pin_digital_value` instance dictionary. -/
def readPinDigital (L : BoardLayout) (first : Bool) (robot : Nat)
    (p : TwoSessionProcess) : List Int :=
  if first then (pin_digital_value L robot p.sess1).1
  else (pin_digital_value L robot p.sess2).1

/-- Outcome of `_generic_initialization`'s layout branch (lines 163-168). -/
inductive LayoutSetupAction where
  | setupLayout (l : BoardLayout)
  | autoSetup
deriving DecidableEq, Repr

/-- `_generic_initialization(self, layout)` (lines 163-168): `if layout:
self.setup_layout(layout) else: self.auto_setup()`.  A `None` (falsy) layout
argument takes the `auto_setup` branch. -/
def generic_initialization (layout : Option BoardLayout) : LayoutSetupAction :=
  match layout with
  | some l => .setupLayout l
  | none => .autoSetup

/-! ### Helper lemmas -/

theorem combine14_eq (a b : Nat) : combine14 a b = a * 128 + b := by
  simp [combine14, Nat.shiftLeft_eq]

theorem dictFind_append_of_none {d : PinDict} {k : Nat}
    (h : dictFind d k = none) (e : PinDict) :
    dictFind (d ++ e) k = dictFind e k := by
  induction d with
  | nil => simp [dictFind]
  | cons p rest ih =>
    by_cases hpk : p.1 = k
    · simp [dictFind, hpk] at h
    · simp only [List.cons_append, dictFind, hpk, if_false] at h ⊢
      exact ih h

theorem dictFind_dictStore_self {d : PinDict} {k : Nat} {w : List Int}
    (h : dictFind d k = some w) (v : List Int) :
    dictFind (dictStore d k v) k = some v := by
  induction d with
  | nil => simp [dictFind] at h
  | cons p rest ih =>
    by_cases hpk : p.1 = k
    · simp [dictStore, dictFind, hpk]
    · simp only [dictStore, List.map_cons, dictFind, hpk, if_false] at h ⊢
      exact ih h

theorem dictFind_setdefault_self (d : PinDict) (k : Nat) (v : List Int) :
    dictFind (setdefault d k v).2 k = some (setdefault d k v).1 := by
  cases h : dictFind d k with
  | none =>
    simp only [setdefault, h]
    rw [dictFind_append_of_none h]
    simp [dictFind]
  | some w =>
    simp only [setdefault, h]

theorem setdefault_of_some {d : PinDict} {k : Nat} {w : List Int}
    (h : dictFind d k = some w) (v : List Int) : setdefault d k v = (w, d) := by
  simp [setdefault, h]

theorem setdefault_of_none {d : PinDict} {k : Nat} (h : dictFind d k = none)
    (v : List Int) : setdefault d k v = (v, d ++ [(k, v)]) := by
  simp [setdefault, h]

theorem pin_analog_value_dictFind (L : BoardLayout) (robot : Nat)
    (s : SessionState) :
    dictFind (pin_analog_value L robot s).2.pin_analog_dict robot =
      some (pin_analog_value L robot s).1 := by
  simp only [pin_analog_value]
  exact dictFind_setdefault_self ..

theorem pin_digital_value_dictFind (L : BoardLayout) (robot : Nat)
    (s : SessionState) :
    dictFind (pin_digital_value L robot s).2.pin_digital_dict robot =
      some (pin_digital_value L robot s).1 := by
  simp only [pin_digital_value]
  exact dictFind_setdefault_self ..

theorem pin_analog_value_length (L : BoardLayout) (robot : Nat)
    (s : SessionState)
    (hwf : ∀ a, dictFind s.pin_analog_dict robot = some a →
      a.length = L.analog.length) :
    (pin_analog_value L robot s).1.length = L.analog.length := by
  cases h : dictFind s.pin_analog_dict robot with
  | none => simp [pin_analog_value, setdefault_of_none h]
  | some w =>
    simp only [pin_analog_value, setdefault_of_some h]
    exact hwf w h

theorem pin_digital_value_length (L : BoardLayout) (robot : Nat)
    (s : SessionState)
    (hwf : ∀ a, dictFind s.pin_digital_dict robot = some a →
      a.length = L.digital.length) :
    (pin_digital_value L robot s).1.length = L.digital.length := by
  cases h : dictFind s.pin_digital_dict robot with
  | none => simp [pin_digital_value, setdefault_of_none h]
  | some w =>
    simp only [pin_digital_value, setdefault_of_some h]
    exact hwf w h

/-! ### Claims -/

/-- C2: for all 7-bit `msb`, `lsb`, combining into `(msb <<< 7) + lsb` and
re-splitting into high and low 7-bit halves reproduces `(msb, lsb)`, and the
combined value lies in `[0, 16383]`. -/
theorem claim2_roundtrip_14bit (msb lsb : Nat) (hm : msb ≤ 127)
    (hl : lsb ≤ 127) :
    split14 (combine14 msb lsb) = (msb, lsb) ∧ combine14 msb lsb ≤ 16383 := by
  have hc := combine14_eq msb lsb
  have hs : (combine14 msb lsb) >>> 7 = combine14 msb lsb / 128 := by
    simp [Nat.shiftRight_eq_div_pow]
  refine ⟨?_, by omega⟩
  simp only [split14, hs, hc, Prod.mk.injEq]
  omega

/-- C2 witness: round trip at `msb = 5`, `lsb = 9`. -/
theorem claim2_roundtrip_14bit_witness :
    split14 (combine14 5 9) = (5, 9) ∧ combine14 5 9 ≤ 16383 :=
  claim2_roundtrip_14bit 5 9 (by decide) (by decide)

/-- C9 counterexample: the claim that constructing a TCP session never
triggers auto-discovery for any value of the layout argument is false — a
`None` (falsy) layout makes `_generic_initialization` call `auto_setup()`. -/
theorem claim9_counterexample :
    ¬ (∀ layout : Option BoardLayout,
        generic_initialization layout ≠ LayoutSetupAction.autoSetup) := by
  intro h
  exact h none rfl

/-- C9 amended: the TCP variant's layout parameter is positionally required,
and whenever a truthy layout is supplied, `setup_layout` is used and
auto-discovery is not triggered; only a falsy layout routes to `auto_setup`. -/
theorem claim9_truthy_layout_uses_setup (l : BoardLayout) :
    generic_initialization (some l) = LayoutSetupAction.setupLayout l ∧
    generic_initialization (some l) ≠ LayoutSetupAction.autoSetup :=
  ⟨rfl, fun h => LayoutSetupAction.noConfusion h⟩

/-- C6: a pin-commands payload whose subtype byte is neither `PIN_GET_ANALOG`
(0x01) nor `PIN_GET_DIGITAL` (0x02) is silently ignored: the decoder succeeds
and the whole board state (shared registries and per-pin dictionaries alike)
is unchanged. -/
theorem claim6_unknown_subtype_noop (L : BoardLayout) (data : List Nat)
    (d0 : Nat) (h0 : data[0]? = some d0) (h1 : d0 ≠ PIN_GET_ANALOG)
    (h2 : d0 ≠ PIN_GET_DIGITAL) (s : BoardState) :
    handle_sysex_pin_commands L data s.sessionPart = some s.sessionPart ∧
    stepOp L (SysexOp.pinCommands data) s = s := by
  have hh : ∀ t : SessionState, handle_sysex_pin_commands L data t = some t := by
    intro t
    simp [handle_sysex_pin_commands, h0, h1, h2]
  refine ⟨hh _, ?_⟩
  simp [stepOp, hh]

/-- C6 witness: subtype 5 on a fresh board. -/
theorem claim6_unknown_subtype_noop_witness :
    handle_sysex_pin_commands duinobotLayout [5] initSession =
      some initSession ∧
    stepOp duinobotLayout (SysexOp.pinCommands [5])
      { globalPart := initGlobal, sessionPart := initSession } =
      { globalPart := initGlobal, sessionPart := initSession } :=
  claim6_unknown_subtype_noop duinobotLayout [5] 5 rfl (by decide) (by decide)
    { globalPart := initGlobal, sessionPart := initSession }

/-- C10: a payload shorter than the expected length (3 bytes for ping and
analog, 2 for digital, 1 for broadcast) makes the decoder fail with the
out-of-range payload read (Python's `IndexError`, modelled as `none`), and
since every payload read precedes the single registry write, the failure is
atomic: the board state is left completely unchanged. -/
theorem claim10_short_payload_fails_atomically (L : BoardLayout)
    (s : BoardState) (d1 d2 d3 d4 : List Nat) (h1 : d1.length < 3)
    (h2 : d2.length < 3) (h3 : d3.length < 2) (h4 : d4.length < 1) :
    (handle_sysex_ping d1 s.globalPart = none ∧
      stepOp L (SysexOp.ping d1) s = s) ∧
    (handle_sysex_analog d2 s.globalPart = none ∧
      stepOp L (SysexOp.analogReq d2) s = s) ∧
    (handle_sysex_digital d3 s.globalPart = none ∧
      stepOp L (SysexOp.digitalReq d3) s = s) ∧
    (handle_sysex_broadcast d4 s.globalPart = none ∧
      stepOp L (SysexOp.broadcast d4) s = s) := by
  have hp : handle_sysex_ping d1 s.globalPart = none := by
    rcases d1 with _ | ⟨a, _ | ⟨b, _ | ⟨c, rest⟩⟩⟩
    · rfl
    · rfl
    · rfl
    · simp only [List.length_cons] at h1; omega
  have ha : handle_sysex_analog d2 s.globalPart = none := by
    rcases d2 with _ | ⟨a, _ | ⟨b, _ | ⟨c, rest⟩⟩⟩
    · rfl
    · rfl
    · rfl
    · simp only [List.length_cons] at h2; omega
  have hd : handle_sysex_digital d3 s.globalPart = none := by
    rcases d3 with _ | ⟨a, _ | ⟨b, rest⟩⟩
    · rfl
    · rfl
    · simp only [List.length_cons] at h3; omega
  have hb : handle_sysex_broadcast d4 s.globalPart = none := by
    rcases d4 with _ | ⟨a, rest⟩
    · rfl
    · simp only [List.length_cons] at h4; omega
  exact ⟨⟨hp, by simp [stepOp, hp]⟩, ⟨ha, by simp [stepOp, ha]⟩,
    ⟨hd, by simp [stepOp, hd]⟩, ⟨hb, by simp [stepOp, hb]⟩⟩

/-- C10 witness: concrete short payloads on a fresh board. -/
theorem claim10_short_payload_fails_atomically_witness :
    (handle_sysex_ping [1, 2] initGlobal = none ∧
      stepOp duinobotLayout (SysexOp.ping [1, 2])
        { globalPart := initGlobal, sessionPart := initSession } =
        { globalPart := initGlobal, sessionPart := initSession }) ∧
    (handle_sysex_analog [7] initGlobal = none ∧
      stepOp duinobotLayout (SysexOp.analogReq [7])
        { globalPart := initGlobal, sessionPart := initSession } =
        { globalPart := initGlobal, sessionPart := initSession }) ∧
    (handle_sysex_digital [0] initGlobal = none ∧
      stepOp duinobotLayout (SysexOp.digitalReq [0])
        { globalPart := initGlobal, sessionPart := initSession } =
        { globalPart := initGlobal, sessionPart := initSession }) ∧
    (handle_sysex_broadcast [] initGlobal = none ∧
      stepOp duinobotLayout (SysexOp.broadcast [])
        { globalPart := initGlobal, sessionPart := initSession } =
        { globalPart := initGlobal, sessionPart := initSession }) :=
  claim10_short_payload_fails_atomically duinobotLayout
    { globalPart := initGlobal, sessionPart := initSession }
    [1, 2] [7] [0] [] (by decide) (by decide) (by decide) (by decide)

set_option maxRecDepth 8192 in
/-- C1: the ping decoder (0x03) stores the 14-bit reconstruction
`(msb <<< 7) + lsb` — a value in `[0, 16383]` — into
`nearest_obstacle[robot]`; the analog decoder (0x06) applies the same
reconstruction to `analog_value[robot]`; and Ping(msb=1, lsb=0, robot=2) on
the initial registry yields `nearest_obstacle[2] = 128`. -/
theorem claim1_ping_analog_14bit (msb lsb robot : Nat) (hm : msb ≤ 127)
    (hl : lsb ≤ 127) (hr : robot ≤ 127) (s : GlobalState)
    (hn : s.nearest_obstacle.length = 128) (ha : s.analog_value.length = 128) :
    (∃ g, handle_sysex_ping [msb, lsb, robot] s = some g ∧
      g.nearest_obstacle[robot]? = some (combine14 msb lsb : Int) ∧
      combine14 msb lsb ≤ 16383) ∧
    (∃ g, handle_sysex_analog [msb, lsb, robot] s = some g ∧
      g.analog_value[robot]? = some (combine14 msb lsb : Int)) ∧
    ((handle_sysex_ping [1, 0, 2] initGlobal).bind
      (fun g => g.nearest_obstacle[2]?) = some 128) := by
  have hr1 : robot < s.nearest_obstacle.length := by omega
  have hr2 : robot < s.analog_value.length := by omega
  refine ⟨⟨{ s with nearest_obstacle :=
      s.nearest_obstacle.set robot (combine14 msb lsb) }, ?_, ?_, ?_⟩,
    ⟨{ s with analog_value :=
      s.analog_value.set robot (combine14 msb lsb) }, ?_, ?_⟩, by decide⟩
  · simp [handle_sysex_ping, hr1]
  · exact List.getElem?_set_self hr1
  · have := combine14_eq msb lsb
    omega
  · simp [handle_sysex_analog, hr2]
  · exact List.getElem?_set_self hr2

set_option maxRecDepth 8192 in
/-- C1 witness: Ping and Analog at msb=1, lsb=0, robot=2 on the fresh
registry. -/
theorem claim1_ping_analog_14bit_witness :
    (∃ g, handle_sysex_ping [1, 0, 2] initGlobal = some g ∧
      g.nearest_obstacle[2]? = some (combine14 1 0 : Int) ∧
      combine14 1 0 ≤ 16383) ∧
    (∃ g, handle_sysex_analog [1, 0, 2] initGlobal = some g ∧
      g.analog_value[2]? = some (combine14 1 0 : Int)) ∧
    ((handle_sysex_ping [1, 0, 2] initGlobal).bind
      (fun g => g.nearest_obstacle[2]?) = some 128) :=
  claim1_ping_analog_14bit 1 0 2 (by decide) (by decide) (by decide)
    initGlobal (by decide) (by decide)

/-- Inversion for the ping decoder: success determines the payload reads and
the unique registry write. -/
theorem handle_sysex_ping_some {data : List Nat} {g g' : GlobalState}
    (h : handle_sysex_ping data g = some g') :
    ∃ msb lsb robot, data[0]? = some msb ∧ data[1]? = some lsb ∧
      data[2]? = some robot ∧ robot < g.nearest_obstacle.length ∧
      g' = { g with nearest_obstacle :=
        g.nearest_obstacle.set robot (combine14 msb lsb) } := by
  cases h0 : data[0]? with
  | none => simp [handle_sysex_ping, h0] at h
  | some msb =>
  cases h1 : data[1]? with
  | none => simp [handle_sysex_ping, h0, h1] at h
  | some lsb =>
  cases h2 : data[2]? with
  | none => simp [handle_sysex_ping, h0, h1, h2] at h
  | some robot =>
  by_cases hr : robot < g.nearest_obstacle.length
  · refine ⟨msb, lsb, robot, rfl, rfl, rfl, hr, ?_⟩
    simp only [handle_sysex_ping, h0, h1, h2, if_pos hr,
      Option.some.injEq] at h
    exact h.symm
  · simp [handle_sysex_ping, h0, h1, h2, hr] at h

/-- Inversion for the analog decoder. -/
theorem handle_sysex_analog_some {data : List Nat} {g g' : GlobalState}
    (h : handle_sysex_analog data g = some g') :
    ∃ msb lsb robot, data[0]? = some msb ∧ data[1]? = some lsb ∧
      data[2]? = some robot ∧ robot < g.analog_value.length ∧
      g' = { g with analog_value :=
        g.analog_value.set robot (combine14 msb lsb) } := by
  cases h0 : data[0]? with
  | none => simp [handle_sysex_analog, h0] at h
  | some msb =>
  cases h1 : data[1]? with
  | none => simp [handle_sysex_analog, h0, h1] at h
  | some lsb =>
  cases h2 : data[2]? with
  | none => simp [handle_sysex_analog, h0, h1, h2] at h
  | some robot =>
  by_cases hr : robot < g.analog_value.length
  · refine ⟨msb, lsb, robot, rfl, rfl, rfl, hr, ?_⟩
    simp only [handle_sysex_analog, h0, h1, h2, if_pos hr,
      Option.some.injEq] at h
    exact h.symm
  · simp [handle_sysex_analog, h0, h1, h2, hr] at h

/-- Inversion for the digital decoder. -/
theorem handle_sysex_digital_some {data : List Nat} {g g' : GlobalState}
    (h : handle_sysex_digital data g = some g') :
    ∃ (value : Nat) (robot : Nat), data[0]? = some value ∧ data[1]? = some robot ∧
      robot < g.digital_value.length ∧
      g' = { g with digital_value :=
        g.digital_value.set robot (value : Int) } := by
  cases h0 : data[0]? with
  | none => simp [handle_sysex_digital, h0] at h
  | some value =>
  cases h1 : data[1]? with
  | none => simp [handle_sysex_digital, h0, h1] at h
  | some robot =>
  by_cases hr : robot < g.digital_value.length
  · refine ⟨value, robot, rfl, rfl, hr, ?_⟩
    simp only [handle_sysex_digital, h0, h1, if_pos hr,
      Option.some.injEq] at h
    exact h.symm
  · simp [handle_sysex_digital, h0, h1, hr] at h

/-- Inversion for the broadcast decoder. -/
theorem handle_sysex_broadcast_some {data : List Nat} {g g' : GlobalState}
    (h : handle_sysex_broadcast data g = some g') :
    ∃ robot, data[0]? = some robot ∧ robot < g.live_robots.length ∧
      g' = { g with live_robots := g.live_robots.set robot 1 } := by
  cases h0 : data[0]? with
  | none => simp [handle_sysex_broadcast, h0] at h
  | some robot =>
  by_cases hr : robot < g.live_robots.length
  · refine ⟨robot, rfl, hr, ?_⟩
    simp only [handle_sysex_broadcast, h0, if_pos hr,
      Option.some.injEq] at h
    exact h.symm
  · simp [handle_sysex_broadcast, h0, hr] at h

/-- C7: dispatch isolation — processing a well-formed ping payload addressed
to `robot` changes only `nearest_obstacle[robot]`: the per-pin dictionaries,
the other shared registries, and `nearest_obstacle` at every other robot id
are all unchanged. -/
theorem claim7_ping_dispatch_isolation (L : BoardLayout) (s : BoardState)
    (data : List Nat) (msb lsb robot : Nat) (h0 : data[0]? = some msb)
    (h1 : data[1]? = some lsb) (h2 : data[2]? = some robot)
    (hr : robot < s.globalPart.nearest_obstacle.length) :
    (stepOp L (SysexOp.ping data) s).sessionPart = s.sessionPart ∧
    (stepOp L (SysexOp.ping data) s).globalPart.analog_value =
      s.globalPart.analog_value ∧
    (stepOp L (SysexOp.ping data) s).globalPart.digital_value =
      s.globalPart.digital_value ∧
    (stepOp L (SysexOp.ping data) s).globalPart.live_robots =
      s.globalPart.live_robots ∧
    (stepOp L (SysexOp.ping data) s).globalPart.nearest_obstacle[robot]? =
      some (combine14 msb lsb : Int) ∧
    (∀ other, other ≠ robot →
      (stepOp L (SysexOp.ping data) s).globalPart.nearest_obstacle[other]? =
        s.globalPart.nearest_obstacle[other]?) := by
  have hh : handle_sysex_ping data s.globalPart =
      some { s.globalPart with nearest_obstacle :=
        s.globalPart.nearest_obstacle.set robot (combine14 msb lsb) } := by
    simp [handle_sysex_ping, h0, h1, h2, hr]
  have hs : stepOp L (SysexOp.ping data) s =
      { s with globalPart := { s.globalPart with nearest_obstacle := s.globalPart.nearest_obstacle.set robot (combine14 msb lsb) } } := by
    simp [stepOp, hh]
  rw [hs]
  refine ⟨rfl, rfl, rfl, rfl, List.getElem?_set_self hr, ?_⟩
  intro other hne
  exact List.getElem?_set_ne (fun e => hne e.symm)

/-- C7 witness: ping for robot 5 on the fresh board. -/
theorem claim7_ping_dispatch_isolation_witness :
    (stepOp duinobotLayout (SysexOp.ping [3, 4, 5])
      { globalPart := initGlobal, sessionPart := initSession }).sessionPart =
        initSession ∧
    (stepOp duinobotLayout (SysexOp.ping [3, 4, 5])
      { globalPart := initGlobal,
        sessionPart := initSession }).globalPart.analog_value =
      initGlobal.analog_value ∧
    (stepOp duinobotLayout (SysexOp.ping [3, 4, 5])
      { globalPart := initGlobal,
        sessionPart := initSession }).globalPart.digital_value =
      initGlobal.digital_value ∧
    (stepOp duinobotLayout (SysexOp.ping [3, 4, 5])
      { globalPart := initGlobal,
        sessionPart := initSession }).globalPart.live_robots =
      initGlobal.live_robots ∧
    (stepOp duinobotLayout (SysexOp.ping [3, 4, 5])
      { globalPart := initGlobal,
        sessionPart := initSession }).globalPart.nearest_obstacle[5]? =
      some (combine14 3 4 : Int) ∧
    (∀ other, other ≠ 5 →
      (stepOp duinobotLayout (SysexOp.ping [3, 4, 5])
        { globalPart := initGlobal,
          sessionPart := initSession }).globalPart.nearest_obstacle[other]? =
        initGlobal.nearest_obstacle[other]?) :=
  claim7_ping_dispatch_isolation duinobotLayout
    { globalPart := initGlobal, sessionPart := initSession }
    [3, 4, 5] 3 4 5 rfl rfl rfl (by simp [initGlobal])

/-- One decoder invocation cannot clear a live flag: the only write into
`live_robots` is the broadcast decoder's constant 1. -/
theorem stepOp_live_preserved (L : BoardLayout) (op : SysexOp)
    (s : BoardState) (r : Nat)
    (h : s.globalPart.live_robots[r]? = some 1) :
    (stepOp L op s).globalPart.live_robots[r]? = some 1 := by
  cases op with
  | ping d =>
    cases hh : handle_sysex_ping d s.globalPart with
    | none => simpa [stepOp, hh] using h
    | some g =>
      obtain ⟨msb, lsb, robot, _, _, _, _, hg⟩ := handle_sysex_ping_some hh
      subst hg
      simpa [stepOp, hh] using h
  | analogReq d =>
    cases hh : handle_sysex_analog d s.globalPart with
    | none => simpa [stepOp, hh] using h
    | some g =>
      obtain ⟨msb, lsb, robot, _, _, _, _, hg⟩ := handle_sysex_analog_some hh
      subst hg
      simpa [stepOp, hh] using h
  | digitalReq d =>
    cases hh : handle_sysex_digital d s.globalPart with
    | none => simpa [stepOp, hh] using h
    | some g =>
      obtain ⟨value, robot, _, _, _, hg⟩ := handle_sysex_digital_some hh
      subst hg
      simpa [stepOp, hh] using h
  | broadcast d =>
    cases hh : handle_sysex_broadcast d s.globalPart with
    | none => simpa [stepOp, hh] using h
    | some g =>
      obtain ⟨robot, _, hrlen, hg⟩ := handle_sysex_broadcast_some hh
      subst hg
      simp only [stepOp, hh]
      by_cases hrr : robot = r
      · subst hrr
        simpa using List.getElem?_set_self hrlen
      · simpa [List.getElem?_set_ne hrr] using h
  | pinCommands d =>
    cases hh : handle_sysex_pin_commands L d s.sessionPart with
    | none => simpa [stepOp, hh] using h
    | some t => simpa [stepOp, hh] using h

/-- C5: `isLive` is monotonic — once `live_robots[r]` holds 1, no sequence of
decoder invocations, in any order and with any payloads, ever resets it. -/
theorem claim5_isLive_monotonic (L : BoardLayout) (ops : List SysexOp)
    (s : BoardState) (r : Nat)
    (h : s.globalPart.live_robots[r]? = some 1) :
    (runOps L ops s).globalPart.live_robots[r]? = some 1 := by
  induction ops generalizing s with
  | nil => exact h
  | cons op rest ih =>
    have hstep := stepOp_live_preserved L op s r h
    simpa [runOps] using ih (stepOp L op s) hstep

set_option maxRecDepth 8192 in
/-- C5 witness: after a broadcast for robot 3, a ping, an analog frame, a
malformed frame and a pin command leave `live_robots[3]` at 1. -/
theorem claim5_isLive_monotonic_witness :
    (runOps duinobotLayout
      [SysexOp.ping [1, 0, 3], SysexOp.analogReq [2, 2, 3],
        SysexOp.digitalReq [1, 3], SysexOp.broadcast [9],
        SysexOp.pinCommands [2, 1, 3, 3], SysexOp.ping [5]]
      { globalPart :=
          { initGlobal with live_robots := (List.replicate 128 0).set 3 1 },
        sessionPart := initSession }).globalPart.live_robots[3]? = some 1 :=
  claim5_isLive_monotonic duinobotLayout _ _ 3 (by decide)

/-- When the robot id is already present, the analog accessor returns the
stored array and leaves the session untouched. -/
theorem pin_analog_value_of_found {L : BoardLayout} {robot : Nat}
    {t : SessionState} {a : List Int}
    (hf : dictFind t.pin_analog_dict robot = some a) :
    pin_analog_value L robot t = (a, t) := by
  simp [pin_analog_value, setdefault_of_some hf]

/-- When the robot id is already present, the digital accessor returns the
stored array and leaves the session untouched. -/
theorem pin_digital_value_of_found {L : BoardLayout} {robot : Nat}
    {t : SessionState} {a : List Int}
    (hf : dictFind t.pin_digital_dict robot = some a) :
    pin_digital_value L robot t = (a, t) := by
  simp [pin_digital_value, setdefault_of_some hf]

/-- C4: for a robot id not yet seen, the first accessor call allocates an
array of exactly the configured analog (resp. digital) pin count with every
slot −1, stores it under the id, and returns it; the second call returns
precisely the stored array with the session state unchanged — no
reallocation. -/
theorem claim4_lazy_pin_accessors (L : BoardLayout) (robot : Nat)
    (s : SessionState) (ha : dictFind s.pin_analog_dict robot = none)
    (hd : dictFind s.pin_digital_dict robot = none) :
    ((pin_analog_value L robot s).1 = List.replicate L.analog.length (-1) ∧
      dictFind (pin_analog_value L robot s).2.pin_analog_dict robot =
        some (pin_analog_value L robot s).1 ∧
      pin_analog_value L robot (pin_analog_value L robot s).2 =
        ((pin_analog_value L robot s).1, (pin_analog_value L robot s).2)) ∧
    ((pin_digital_value L robot s).1 = List.replicate L.digital.length (-1) ∧
      dictFind (pin_digital_value L robot s).2.pin_digital_dict robot =
        some (pin_digital_value L robot s).1 ∧
      pin_digital_value L robot (pin_digital_value L robot s).2 =
        ((pin_digital_value L robot s).1, (pin_digital_value L robot s).2)) := by
  refine ⟨⟨?_, pin_analog_value_dictFind L robot s,
      pin_analog_value_of_found (pin_analog_value_dictFind L robot s)⟩,
    ⟨?_, pin_digital_value_dictFind L robot s,
      pin_digital_value_of_found (pin_digital_value_dictFind L robot s)⟩⟩
  · simp [pin_analog_value, setdefault_of_none ha]
  · simp [pin_digital_value, setdefault_of_none hd]

/-- C4 witness: robot 0 on a fresh session with the duinobot layout. -/
theorem claim4_lazy_pin_accessors_witness :
    ((pin_analog_value duinobotLayout 0 initSession).1 =
        List.replicate duinobotLayout.analog.length (-1) ∧
      dictFind (pin_analog_value duinobotLayout 0
          initSession).2.pin_analog_dict 0 =
        some (pin_analog_value duinobotLayout 0 initSession).1 ∧
      pin_analog_value duinobotLayout 0
          (pin_analog_value duinobotLayout 0 initSession).2 =
        ((pin_analog_value duinobotLayout 0 initSession).1,
          (pin_analog_value duinobotLayout 0 initSession).2)) ∧
    ((pin_digital_value duinobotLayout 0 initSession).1 =
        List.replicate duinobotLayout.digital.length (-1) ∧
      dictFind (pin_digital_value duinobotLayout 0
          initSession).2.pin_digital_dict 0 =
        some (pin_digital_value duinobotLayout 0 initSession).1 ∧
      pin_digital_value duinobotLayout 0
          (pin_digital_value duinobotLayout 0 initSession).2 =
        ((pin_digital_value duinobotLayout 0 initSession).1,
          (pin_digital_value duinobotLayout 0 initSession).2)) :=
  claim4_lazy_pin_accessors duinobotLayout 0 initSession rfl rfl

/-- The analog branch of the pin-commands decoder: the single effect is the
store of the reconstructed 14-bit value at the addressed pin. -/
theorem pin_commands_analog_write (L : BoardLayout) (s : SessionState)
    (msb lsb pin robot : Nat)
    (hwa : ∀ a, dictFind s.pin_analog_dict robot = some a →
      a.length = L.analog.length)
    (hpa : pin < L.analog.length) :
    handle_sysex_pin_commands L [PIN_GET_ANALOG, msb, lsb, pin, robot] s =
      some { (pin_analog_value L robot s).2 with pin_analog_dict := dictStore (pin_analog_value L robot s).2.pin_analog_dict robot ((pin_analog_value L robot s).1.set pin (combine14 msb lsb)) } := by
  have hlen : pin < (pin_analog_value L robot s).1.length := by
    rw [pin_analog_value_length L robot s hwa]
    exact hpa
  simp [handle_sysex_pin_commands, PIN_GET_ANALOG, hlen]

/-- The digital branch of the pin-commands decoder: the single effect is the
store of the raw value at the addressed pin. -/
theorem pin_commands_digital_write (L : BoardLayout) (s : SessionState)
    (value pin robot : Nat)
    (hwd : ∀ a, dictFind s.pin_digital_dict robot = some a →
      a.length = L.digital.length)
    (hpd : pin < L.digital.length) :
    handle_sysex_pin_commands L [PIN_GET_DIGITAL, value, pin, robot] s =
      some { (pin_digital_value L robot s).2 with pin_digital_dict := dictStore (pin_digital_value L robot s).2.pin_digital_dict robot ((pin_digital_value L robot s).1.set pin (value : Int)) } := by
  have hlen : pin < (pin_digital_value L robot s).1.length := by
    rw [pin_digital_value_length L robot s hwd]
    exact hpd
  simp [handle_sysex_pin_commands, PIN_GET_DIGITAL, PIN_GET_ANALOG, hlen]

/-- C3: pin-commands decoding (0x0F): subtype 0x01 with payload
`[subtype, msb, lsb, pin, robotId]` stores the 14-bit reconstruction into
`pinAnalogValues[robotId][pin]`; subtype 0x02 with payload
`[subtype, value, pin, robotId]` stores the raw value into
`pinDigitalValues[robotId][pin]`; and the GET_DIGITAL scenario (value=1,
pin=3, robot=4) on a fresh session yields `pinDigitalValues(4)[3] = 1` with
the array length equal to the configured digital pin count, 19. -/
theorem claim3_pin_commands (L : BoardLayout) (s : SessionState)
    (msb lsb pin robot value dpin drobot : Nat)
    (hwa : ∀ a, dictFind s.pin_analog_dict robot = some a →
      a.length = L.analog.length)
    (hpa : pin < L.analog.length)
    (hwd : ∀ a, dictFind s.pin_digital_dict drobot = some a →
      a.length = L.digital.length)
    (hpd : dpin < L.digital.length) :
    (∃ t a, handle_sysex_pin_commands L
        [PIN_GET_ANALOG, msb, lsb, pin, robot] s = some t ∧
      dictFind t.pin_analog_dict robot = some a ∧
      a[pin]? = some (combine14 msb lsb : Int)) ∧
    (∃ t a, handle_sysex_pin_commands L
        [PIN_GET_DIGITAL, value, dpin, drobot] s = some t ∧
      dictFind t.pin_digital_dict drobot = some a ∧
      a[dpin]? = some (value : Int)) ∧
    ((handle_sysex_pin_commands duinobotLayout [PIN_GET_DIGITAL, 1, 3, 4]
        initSession).bind
      (fun t => (dictFind t.pin_digital_dict 4).map
        (fun a => (a[3]?, a.length))) = some (some 1, 19)) := by
  have hlena : pin < (pin_analog_value L robot s).1.length := by
    rw [pin_analog_value_length L robot s hwa]
    exact hpa
  have hlend : dpin < (pin_digital_value L drobot s).1.length := by
    rw [pin_digital_value_length L drobot s hwd]
    exact hpd
  refine ⟨⟨_, _, pin_commands_analog_write L s msb lsb pin robot hwa hpa,
      dictFind_dictStore_self (pin_analog_value_dictFind L robot s) _,
      List.getElem?_set_self hlena⟩,
    ⟨_, _, pin_commands_digital_write L s value dpin drobot hwd hpd,
      dictFind_dictStore_self (pin_digital_value_dictFind L drobot s) _,
      List.getElem?_set_self hlend⟩,
    by decide⟩

/-- C3 witness: GET_ANALOG(msb=1, lsb=2, pin=3, robot=4) and
GET_DIGITAL(value=1, pin=3, robot=4) on a fresh session. -/
theorem claim3_pin_commands_witness :
    (∃ t a, handle_sysex_pin_commands duinobotLayout
        [PIN_GET_ANALOG, 1, 2, 3, 4] initSession = some t ∧
      dictFind t.pin_analog_dict 4 = some a ∧
      a[3]? = some (combine14 1 2 : Int)) ∧
    (∃ t a, handle_sysex_pin_commands duinobotLayout
        [PIN_GET_DIGITAL, 1, 3, 4] initSession = some t ∧
      dictFind t.pin_digital_dict 4 = some a ∧
      a[3]? = some ((1 : Nat) : Int)) ∧
    ((handle_sysex_pin_commands duinobotLayout [PIN_GET_DIGITAL, 1, 3, 4]
        initSession).bind
      (fun t => (dictFind t.pin_digital_dict 4).map
        (fun a => (a[3]?, a.length))) = some (some 1, 19)) :=
  claim3_pin_commands duinobotLayout initSession 1 2 3 4 1 3 4
    (fun a h => by simp [initSession, dictFind] at h) (by decide)
    (fun a h => by simp [initSession, dictFind] at h) (by decide)

/-- C8 counterexample: the per-pin arrays are NOT part of the process-wide
store.  Writing `pinDigitalValues[4][3] = 1` through session 1 is visible
when reading through session 1 but not through session 2, whose own instance
dictionary still yields the fresh −1 slot. -/
theorem claim8_counterexample :
    (readPinDigital duinobotLayout true 4
        (procStep duinobotLayout true (SysexOp.pinCommands [2, 1, 3, 4])
          initProcess))[3]? = some 1 ∧
    (readPinDigital duinobotLayout false 4
        (procStep duinobotLayout true (SysexOp.pinCommands [2, 1, 3, 4])
          initProcess))[3]? = some (-1) ∧
    some (-1 : Int) ≠ some (1 : Int) := by
  refine ⟨by decide, by decide, by decide⟩

/-- C8 amended: the four scalar registries (`nearest_obstacle`,
`analog_value`, `digital_value`, `live_robots`) are class attributes and
hence one process-wide store — a value written through either session is
observed through the other, robot identity coming from the payload alone;
the per-pin dictionaries, by contrast, are instance attributes private to
each session. -/
theorem claim8_scalar_registries_shared (L : BoardLayout) (first : Bool)
    (p : TwoSessionProcess) (msb lsb robot value drobot brobot : Nat)
    (hr1 : robot < p.shared.nearest_obstacle.length)
    (hr2 : robot < p.shared.analog_value.length)
    (hr3 : drobot < p.shared.digital_value.length)
    (hr4 : brobot < p.shared.live_robots.length) :
    readNearestObstacle
        (procStep L first (SysexOp.ping [msb, lsb, robot]) p) robot =
      some (combine14 msb lsb : Int) ∧
    (procStep L first (SysexOp.analogReq [msb, lsb, robot])
        p).shared.analog_value[robot]? = some (combine14 msb lsb : Int) ∧
    (procStep L first (SysexOp.digitalReq [value, drobot])
        p).shared.digital_value[drobot]? = some (value : Int) ∧
    (procStep L first (SysexOp.broadcast [brobot])
        p).shared.live_robots[brobot]? = some 1 := by
  have hp : handle_sysex_ping [msb, lsb, robot] p.shared =
      some { p.shared with nearest_obstacle := p.shared.nearest_obstacle.set robot (combine14 msb lsb) } := by
    simp [handle_sysex_ping, hr1]
  have ha : handle_sysex_analog [msb, lsb, robot] p.shared =
      some { p.shared with analog_value := p.shared.analog_value.set robot (combine14 msb lsb) } := by
    simp [handle_sysex_analog, hr2]
  have hd : handle_sysex_digital [value, drobot] p.shared =
      some { p.shared with digital_value := p.shared.digital_value.set drobot (value : Int) } := by
    simp [handle_sysex_digital, hr3]
  have hb : handle_sysex_broadcast [brobot] p.shared =
      some { p.shared with live_robots := p.shared.live_robots.set brobot 1 } := by
    simp [handle_sysex_broadcast, hr4]
  refine ⟨?_, ?_, ?_, ?_⟩ <;> cases first <;>
    simp [procStep, stepOp, hp, ha, hd, hb, readNearestObstacle,
      List.getElem?_set_self, hr1, hr2, hr3, hr4]

set_option maxRecDepth 8192 in
/-- C8 amended witness: concrete scalar writes through session 1 of a fresh
two-session process. -/
theorem claim8_scalar_registries_shared_witness :
    readNearestObstacle
        (procStep duinobotLayout true (SysexOp.ping [1, 0, 2]) initProcess)
        2 = some (combine14 1 0 : Int) ∧
    (procStep duinobotLayout true (SysexOp.analogReq [1, 0, 2])
        initProcess).shared.analog_value[2]? = some (combine14 1 0 : Int) ∧
    (procStep duinobotLayout true (SysexOp.digitalReq [4, 3])
        initProcess).shared.digital_value[3]? = some ((4 : Nat) : Int) ∧
    (procStep duinobotLayout true (SysexOp.broadcast [7])
        initProcess).shared.live_robots[7]? = some 1 :=
  claim8_scalar_registries_shared duinobotLayout true initProcess 1 0 2 4 3 7
    (by decide) (by decide) (by decide) (by decide)

end Duinobot
